import Mathlib

/-!
Verification of the IIUC-BUS-FINDER repository: a shallow embedding of the
client-side logic (schedule filtering, complaint-form handling, Google OAuth
sign-in and callback) together with theorems settling the specification's
claims about it.

JavaScript string primitives are embedded character-wise on `String.data`:
`toLowerCase`/`toUpperCase` map `Char.toLower`/`Char.toUpper` over the
characters, `trim` drops whitespace at both ends, `includes` is substring
containment (`List.IsInfix` on the character lists), and `s || t` on strings
treats the empty string and `undefined` as falsy.
-/

/-- JS `a.includes(b)`: `b` occurs as a contiguous substring of `a`
(true when `b` is empty). -/
def jsIncludes (s sub : String) : Bool :=
  decide (sub.data <:+: s.data)

/-- JS `s.toLowerCase()` (ASCII case mapping, character-wise). -/
def jsToLower (s : String) : String :=
  ⟨s.data.map Char.toLower⟩

/-- JS `s.toUpperCase()` (ASCII case mapping, character-wise). -/
def jsToUpper (s : String) : String :=
  ⟨s.data.map Char.toUpper⟩

/-- JS `s.trim()`: remove whitespace from both ends. -/
def jsTrim (s : String) : String :=
  ⟨((s.data.dropWhile Char.isWhitespace).reverse.dropWhile Char.isWhitespace).reverse⟩

/-- JS `s.substring(a, b)`: characters from index `a` (inclusive) to `b`
(exclusive), clamped to the string. -/
def jsSubstring (s : String) (a b : Nat) : String :=
  ⟨(s.data.drop a).take (b - a)⟩

/-- JS `a || b` on an optional string `a`: `b` when `a` is `undefined` or
the empty string, else the value of `a`. -/
def jsOrStr (a : Option String) (b : String) : String :=
  match a with
  | none => b
  | some s => if s = "" then b else s

/-- The client-side `BusSchedule` record as assembled in
`StudentDashboard.tsx` (`fetchData`, lines 79-91) from a `bus_schedules`
row: camelCase fields, the optional DB columns as `Option`. The
`schedule_type` column is kept as a string, as the page compares it with
the literals `'Regular'`/`'Friday'`. -/
structure BusSchedule where
  id : String
  time : String
  startingPoint : String
  route : String
  endPoint : String
  direction : String
  gender : Option String
  busType : Option String
  remarks : Option String
  description : Option String
  scheduleType : String
deriving DecidableEq, Repr

/-- The dashboard's filter tab: `useState<'all' | 'regular' | 'friday'>`. -/
inductive FilterType where
  | all
  | regular
  | friday
deriving DecidableEq, Repr

/-- The search predicate inside `filteredSchedules`
(`StudentDashboard.tsx` lines 274-278): the term is empty, or its
lowercasing occurs in the lowercasing of one of `time`, `startingPoint`,
`route`, `endPoint`. -/
def matchesSearch (searchTerm : String) (schedule : BusSchedule) : Bool :=
  searchTerm == "" ||
    jsIncludes (jsToLower schedule.time) (jsToLower searchTerm) ||
    jsIncludes (jsToLower schedule.startingPoint) (jsToLower searchTerm) ||
    jsIncludes (jsToLower schedule.route) (jsToLower searchTerm) ||
    jsIncludes (jsToLower schedule.endPoint) (jsToLower searchTerm)

/-- The category predicate inside `filteredSchedules`
(`StudentDashboard.tsx` lines 280-282). -/
def matchesFilter (filterType : FilterType) (schedule : BusSchedule) : Bool :=
  decide (filterType = FilterType.all) ||
    (decide (filterType = FilterType.regular) && schedule.scheduleType == "Regular") ||
    (decide (filterType = FilterType.friday) && schedule.scheduleType == "Friday")

/-- `filteredSchedules` (`StudentDashboard.tsx` lines 273-285):
`schedules.filter(schedule => matchesSearch && matchesFilter)`. -/
def filteredSchedules (schedules : List BusSchedule) (searchTerm : String)
    (filterType : FilterType) : List BusSchedule :=
  schedules.filter fun schedule =>
    matchesSearch searchTerm schedule && matchesFilter filterType schedule

/-- Spec-side search condition, written from the claim: the search term is
empty, or the lowercased term is a substring of one of the four lowercased
fields. -/
def matchesSearchSpec (searchTerm : String) (s : BusSchedule) : Prop :=
  searchTerm = "" ∨
    (jsToLower searchTerm).data <:+: (jsToLower s.time).data ∨
    (jsToLower searchTerm).data <:+: (jsToLower s.startingPoint).data ∨
    (jsToLower searchTerm).data <:+: (jsToLower s.route).data ∨
    (jsToLower searchTerm).data <:+: (jsToLower s.endPoint).data

/-- Spec-side category condition, written from the claim: `all` matches
everything, `regular` matches `scheduleType = "Regular"`, `friday` matches
`scheduleType = "Friday"`. -/
def matchesFilterSpec (filterType : FilterType) (s : BusSchedule) : Prop :=
  filterType = FilterType.all ∨
    (filterType = FilterType.regular ∧ s.scheduleType = "Regular") ∨
    (filterType = FilterType.friday ∧ s.scheduleType = "Friday")

theorem matchesSearch_iff (t : String) (s : BusSchedule) :
    matchesSearch t s = true ↔ matchesSearchSpec t s := by
  simp [matchesSearch, matchesSearchSpec, jsIncludes, Bool.or_eq_true,
    beq_iff_eq, or_assoc]

theorem matchesFilter_iff (ft : FilterType) (s : BusSchedule) :
    matchesFilter ft s = true ↔ matchesFilterSpec ft s := by
  simp [matchesFilter, matchesFilterSpec, Bool.or_eq_true, Bool.and_eq_true,
    beq_iff_eq, or_assoc]

theorem mem_filteredSchedules (xs : List BusSchedule) (t : String)
    (ft : FilterType) (s : BusSchedule) :
    s ∈ filteredSchedules xs t ft ↔
      s ∈ xs ∧ matchesSearchSpec t s ∧ matchesFilterSpec ft s := by
  simp [filteredSchedules, List.mem_filter, Bool.and_eq_true,
    matchesSearch_iff, matchesFilter_iff]

/-- C1: for every schedule list, search term and filter type, the filtered
list contains exactly the schedules that (a) match the search — the term is
empty or its lowercasing is a substring of one of the four lowercased
fields `time`, `startingPoint`, `route`, `endPoint` — and (b) match the
category filter — `all` always, `regular` iff `scheduleType = "Regular"`,
`friday` iff `scheduleType = "Friday"`. -/
theorem filteredSchedules_exact (xs : List BusSchedule) (t : String)
    (ft : FilterType) (s : BusSchedule) :
    s ∈ filteredSchedules xs t ft ↔
      s ∈ xs ∧ matchesSearchSpec t s ∧ matchesFilterSpec ft s :=
  mem_filteredSchedules xs t ft s

/-- C2: every schedule in the result of filtering with filter type
`friday` has `scheduleType = "Friday"`. -/
theorem filteredSchedules_friday_only (xs : List BusSchedule) (t : String)
    (s : BusSchedule) (h : s ∈ filteredSchedules xs t FilterType.friday) :
    s.scheduleType = "Friday" := by
  have h2 := (mem_filteredSchedules xs t FilterType.friday s).mp h
  rcases h2.2.2 with h3 | h3 | h3
  · exact absurd h3 (by simp)
  · exact absurd h3.1 (by simp)
  · exact h3.2

/-- A concrete Friday schedule used by the closed witnesses. -/
def fridaySample : BusSchedule :=
  ⟨"1", "7:00 AM", "BOT", "BOT-IIUC", "IIUC", "CityToIIUC",
    none, none, none, none, "Friday"⟩

theorem filteredSchedules_friday_only_witness :
    fridaySample.scheduleType = "Friday" :=
  filteredSchedules_friday_only [fridaySample] "" fridaySample (by decide)

/-- C7: schedule filtering is pure, stateless and total: it is a function
of the schedule list, the search term and the filter type alone, so two
runs on the same inputs yield identical outputs; it is defined (terminates)
on every finite list; and it mutates nothing — the result is a sublist of
the untouched input, every element of which is one of the input's own
records. -/
theorem filteredSchedules_pure (xs ys : List BusSchedule) (t u : String)
    (ft fu : FilterType) (hx : xs = ys) (ht : t = u) (hf : ft = fu) :
    filteredSchedules xs t ft = filteredSchedules ys u fu ∧
      List.Sublist (filteredSchedules xs t ft) xs ∧
      ∀ s ∈ filteredSchedules xs t ft, s ∈ xs := by
  subst hx; subst ht; subst hf
  exact ⟨rfl, List.filter_sublist xs,
    fun s hs => ((mem_filteredSchedules xs t ft s).mp hs).1⟩

theorem filteredSchedules_pure_witness :
    filteredSchedules [fridaySample] "bot" FilterType.friday =
        filteredSchedules [fridaySample] "bot" FilterType.friday ∧
      List.Sublist (filteredSchedules [fridaySample] "bot" FilterType.friday) [fridaySample] ∧
      ∀ s ∈ filteredSchedules [fridaySample] "bot" FilterType.friday,
        s ∈ [fridaySample] :=
  filteredSchedules_pure [fridaySample] [fridaySample] "bot" "bot"
    FilterType.friday FilterType.friday rfl rfl rfl

/-- C8: filtering with the empty search term and filter type `all` is the
identity on the schedule list, and for every search term and filter type
the filtered result is a subsequence of the input list. -/
theorem filteredSchedules_id_sublist (xs : List BusSchedule) (t : String)
    (ft : FilterType) :
    filteredSchedules xs "" FilterType.all = xs ∧
      List.Sublist (filteredSchedules xs t ft) xs := by
  constructor
  · simp [filteredSchedules, matchesSearch, matchesFilter]
  · exact List.filter_sublist xs

/-! ## Complaint form handling (`StudentDashboard.tsx`, `handleComplaintSubmit`) -/

/-- Complaint category enum from the `Complaint` interface in
`src/lib/supabase.ts`. -/
inductive Category where
  | delay
  | safety
  | driver_behavior
  | bus_condition
  | route_issue
  | other
deriving DecidableEq, Repr

/-- Complaint priority enum from the `Complaint` interface in
`src/lib/supabase.ts`. -/
inductive Priority where
  | low
  | medium
  | high
  | urgent
deriving DecidableEq, Repr

/-- The `complaintForm` component state of `StudentDashboard.tsx`
(lines 31-38). -/
structure ComplaintForm where
  title : String
  description : String
  category : Category
  priority : Priority
  bus_route : String
  incident_time : String
deriving DecidableEq, Repr

/-- The initial/reset value of `complaintForm` (lines 31-38 and
214-221 of `StudentDashboard.tsx`). -/
def defaultComplaintForm : ComplaintForm :=
  ⟨"", "", Category.other, Priority.medium, "", ""⟩

/-- The validation chain at the head of `handleComplaintSubmit`
(lines 165-179): the error message set when validation rejects, `none`
when it passes. -/
def validateComplaint (f : ComplaintForm) : Option String :=
  if jsTrim f.title == "" then
    some "Please provide a title for your complaint"
  else if jsTrim f.description == "" then
    some "Please provide a detailed description of the issue"
  else if (jsTrim f.description).length < 10 then
    some "Please provide a more detailed description (at least 10 characters)"
  else
    none

/-- The row sent to `supabase.from('complaints').insert` (lines 194-205):
trimmed title/description, category and priority as-is, and
`trim() || null` for the optional fields. -/
structure ComplaintPayload where
  user_id : Option String
  title : String
  description : String
  category : Category
  priority : Priority
  bus_route : Option String
  incident_time : Option String
deriving DecidableEq, Repr

/-- JS `s.trim() || null` used for `bus_route` and `incident_time`. -/
def trimOrNull (s : String) : Option String :=
  if jsTrim s == "" then none else some (jsTrim s)

def complaintPayload (userId : Option String) (f : ComplaintForm) :
    ComplaintPayload :=
  ⟨userId, jsTrim f.title, jsTrim f.description, f.category, f.priority,
    trimOrNull f.bus_route, trimOrNull f.incident_time⟩

/-- What `handleComplaintSubmit` submits: `none` when validation rejects
(the insert is never reached), otherwise the inserted payload. -/
def submittedComplaint (userId : Option String) (f : ComplaintForm) :
    Option ComplaintPayload :=
  match validateComplaint f with
  | some _ => none
  | none => some (complaintPayload userId f)

/-- Outcome of the awaited `insert` call: success, a Supabase error
object, or a thrown exception (the `catch` branch). -/
inductive DbResult where
  | ok
  | dbError (msg : String)
  | exn
deriving DecidableEq, Repr

/-- The component state touched by `handleComplaintSubmit`. -/
structure ComplaintState where
  form : ComplaintForm
  error : String
  success : String
  showForm : Bool
deriving DecidableEq, Repr

/-- `handleComplaintSubmit` (`StudentDashboard.tsx` lines 160-238) as a
state transformer: clear the error/success banners, run the validation
chain (set the error and stop on failure), then insert; a DB error or an
exception sets the error banner and leaves the form alone, success resets
the form to its defaults, sets the success banner and hides the form. -/
def handleComplaintSubmit (st : ComplaintState) (db : DbResult) :
    ComplaintState :=
  let st1 : ComplaintState := { st with error := "", success := "" }
  match validateComplaint st1.form with
  | some msg => { st1 with error := msg }
  | none =>
    match db with
    | DbResult.dbError m =>
        { st1 with error := "Failed to submit complaint: " ++ m }
    | DbResult.exn =>
        { st1 with error := "An unexpected error occurred. Please try again." }
    | DbResult.ok =>
        { st1 with
            form := defaultComplaintForm,
            success := "Your complaint has been submitted successfully! We will review it and get back to you soon.",
            showForm := false }

/-- A complaint form whose title and description are non-empty but whose
description is shorter than 10 characters. -/
def shortDescriptionForm : ComplaintForm :=
  ⟨"Broken AC", "short", Category.bus_condition, Priority.low, "", ""⟩

/-- C3 counterexample: the claim says any complaint with non-empty
(trimmed) title and description and valid enum values is submitted, but
`handleComplaintSubmit` also rejects descriptions of fewer than 10
characters: the form with title `"Broken AC"` and description `"short"`
has both fields non-empty yet is not submitted. -/
theorem complaint_validation_cex :
    jsTrim shortDescriptionForm.title ≠ "" ∧
      jsTrim shortDescriptionForm.description ≠ "" ∧
      submittedComplaint none shortDescriptionForm = none := by
  decide

/-- C3 (amended): `handleComplaintSubmit` rejects a submission (sets an
error and never reaches the insert) exactly when the trimmed title is
empty, the trimmed description is empty, or the trimmed description has
fewer than 10 characters; every other form is submitted. -/
theorem complaint_validation_amended (uid : Option String)
    (f : ComplaintForm) :
    submittedComplaint uid f = none ↔
      jsTrim f.title = "" ∨ jsTrim f.description = "" ∨
        (jsTrim f.description).length < 10 := by
  by_cases h1 : jsTrim f.title = ""
  · simp [submittedComplaint, validateComplaint, h1]
  · by_cases h2 : jsTrim f.description = ""
    · simp [submittedComplaint, validateComplaint, h1, h2]
    · by_cases h3 : (jsTrim f.description).length < 10
      · simp [submittedComplaint, validateComplaint, h1, h2, h3]
      · simp [submittedComplaint, validateComplaint, h1, h2, h3]

/-- C10: `handleComplaintSubmit` is atomic for the form state: when
validation fails or the insert does not succeed, the form fields are left
unchanged; only on a successful insert is the form reset to its defaults
(empty title, description, bus_route and incident_time, category `other`,
priority `medium`). -/
theorem handleComplaintSubmit_atomic (st : ComplaintState) (db : DbResult) :
    (validateComplaint st.form ≠ none ∨ db ≠ DbResult.ok →
      (handleComplaintSubmit st db).form = st.form) ∧
    (validateComplaint st.form = none ∧ db = DbResult.ok →
      (handleComplaintSubmit st db).form =
        ⟨"", "", Category.other, Priority.medium, "", ""⟩) := by
  constructor
  · intro h
    rcases hv : validateComplaint st.form with _ | msg
    · rcases h with h | h
      · exact absurd hv h
      · cases db with
        | ok => exact absurd rfl h
        | dbError m => simp [handleComplaintSubmit, hv]
        | exn => simp [handleComplaintSubmit, hv]
    · simp [handleComplaintSubmit, hv]
  · rintro ⟨h1, h2⟩
    subst h2
    simp [handleComplaintSubmit, h1, defaultComplaintForm]

/-- A concrete dashboard state with a valid complaint form. -/
def complaintStateSample : ComplaintState :=
  ⟨⟨"Bus late", "The 8am bus was 40 minutes late", Category.delay,
      Priority.high, "", ""⟩, "", "", true⟩

theorem handleComplaintSubmit_atomic_witness :
    (handleComplaintSubmit complaintStateSample DbResult.ok).form =
      ⟨"", "", Category.other, Priority.medium, "", ""⟩ :=
  (handleComplaintSubmit_atomic complaintStateSample DbResult.ok).2
    ⟨by decide, rfl⟩

/-! ## Google OAuth sign-in (`src/lib/supabase.ts`, `signInWithGoogle`) -/

/-- JS falsiness of an optional string: `undefined` or the empty string. -/
def jsFalsyStr : Option String → Bool
  | none => true
  | some s => s == ""

/-- The configuration guard of `signInWithGoogle` (line 101):
`!supabaseUrl || !supabaseAnonKey || supabaseUrl === placeholder`. -/
def supabaseMisconfigured (url anonKey : Option String) : Bool :=
  jsFalsyStr url || jsFalsyStr anonKey ||
    url == some "https://placeholder.supabase.co"

/-- Outcome of the awaited `supabase.auth.signInWithOAuth` call: data on
success, a Supabase error object with a message, or a thrown exception
(the `catch` branch). -/
inductive OAuthOutcome where
  | ok (data : String)
  | err (msg : String)
  | thrown (msg : String)
deriving DecidableEq, Repr

/-- The `{ data?, error?, needsSetup? }` record `signInWithGoogle`
resolves with; an omitted `needsSetup` is `false`. -/
structure SignInResult where
  data : Option String
  errorMsg : Option String
  needsSetup : Bool
deriving DecidableEq, Repr

def misconfiguredMsg : String :=
  "Supabase is not properly configured. Please contact the administrator."

def googleNotEnabledMsg : String :=
  "Google Sign-In is not enabled in Supabase. Please contact the administrator to enable the Google OAuth provider in the Supabase dashboard."

def redirectUrlMsg : String :=
  "Google Sign-In redirect URL is not configured properly. Please contact the administrator to add the correct redirect URLs in Supabase."

def clientNotConfiguredMsg : String :=
  "Google OAuth client is not configured. Please contact the administrator to set up Google OAuth credentials in Supabase."

def invalidConfigMsg : String :=
  "Google OAuth configuration is invalid. Please contact the administrator to verify the Google OAuth settings."

def genericSignInFailureMsg (m : String) : String :=
  "Google Sign-In failed: " ++ m ++ ". Please try again or contact support if the issue persists."

def unexpectedSignInMsg : String :=
  "An unexpected error occurred with Google Sign-In. Please try again or use email/password login."

/-- `signInWithGoogle` (`src/lib/supabase.ts` lines 96-182) as a function
of the configuration strings and the outcome of the single OAuth call,
returning the resolved record together with the number of times the OAuth
call was performed. Every path returns a record (the `try`/`catch` turns a
thrown exception into the generic unexpected-error record), so no
exception escapes; the embedding's result type is a plain record, not an
exception monad. -/
def signInWithGoogle (url anonKey : Option String) (oauth : OAuthOutcome) :
    SignInResult × Nat :=
  if supabaseMisconfigured url anonKey then
    (⟨none, some misconfiguredMsg, true⟩, 0)
  else
    match oauth with
    | OAuthOutcome.ok d => (⟨some d, none, false⟩, 1)
    | OAuthOutcome.thrown _ => (⟨none, some unexpectedSignInMsg, false⟩, 1)
    | OAuthOutcome.err m =>
      if jsIncludes m "not enabled" || jsIncludes m "provider" then
        (⟨none, some googleNotEnabledMsg, true⟩, 1)
      else if jsIncludes m "redirect" || jsIncludes m "url" then
        (⟨none, some redirectUrlMsg, true⟩, 1)
      else if jsIncludes m "client_id" || jsIncludes m "client" then
        (⟨none, some clientNotConfiguredMsg, true⟩, 1)
      else if jsIncludes m "unauthorized" || jsIncludes m "invalid" then
        (⟨none, some invalidConfigMsg, true⟩, 1)
      else
        (⟨none, some (genericSignInFailureMsg m), false⟩, 1)

/-- Spec-side substring relation: `sub` occurs contiguously in `s`. -/
def substrOf (sub s : String) : Prop :=
  sub.data <:+: s.data

theorem jsIncludes_iff (s sub : String) :
    jsIncludes s sub = true ↔ substrOf sub s := by
  simp [jsIncludes, substrOf]

/-- C4: with Supabase configured, `signInWithGoogle` classifies an OAuth
error by substrings of its message, in order: `not enabled`/`provider`
selects the static not-enabled explanation with `needsSetup`; otherwise
`redirect`/`url`, then `client_id`/`client`, then
`unauthorized`/`invalid`, each selecting its own static explanation with
`needsSetup`; an unmatched message yields the generic failure message
without `needsSetup`. -/
theorem signInWithGoogle_classifies (url anonKey : Option String)
    (m : String) (hcfg : supabaseMisconfigured url anonKey = false) :
    (substrOf "not enabled" m ∨ substrOf "provider" m →
      (signInWithGoogle url anonKey (OAuthOutcome.err m)).1 =
        ⟨none, some googleNotEnabledMsg, true⟩) ∧
    (¬(substrOf "not enabled" m ∨ substrOf "provider" m) →
      (substrOf "redirect" m ∨ substrOf "url" m) →
      (signInWithGoogle url anonKey (OAuthOutcome.err m)).1 =
        ⟨none, some redirectUrlMsg, true⟩) ∧
    (¬(substrOf "not enabled" m ∨ substrOf "provider" m) →
      ¬(substrOf "redirect" m ∨ substrOf "url" m) →
      (substrOf "client_id" m ∨ substrOf "client" m) →
      (signInWithGoogle url anonKey (OAuthOutcome.err m)).1 =
        ⟨none, some clientNotConfiguredMsg, true⟩) ∧
    (¬(substrOf "not enabled" m ∨ substrOf "provider" m) →
      ¬(substrOf "redirect" m ∨ substrOf "url" m) →
      ¬(substrOf "client_id" m ∨ substrOf "client" m) →
      (substrOf "unauthorized" m ∨ substrOf "invalid" m) →
      (signInWithGoogle url anonKey (OAuthOutcome.err m)).1 =
        ⟨none, some invalidConfigMsg, true⟩) ∧
    (¬(substrOf "not enabled" m ∨ substrOf "provider" m) →
      ¬(substrOf "redirect" m ∨ substrOf "url" m) →
      ¬(substrOf "client_id" m ∨ substrOf "client" m) →
      ¬(substrOf "unauthorized" m ∨ substrOf "invalid" m) →
      (signInWithGoogle url anonKey (OAuthOutcome.err m)).1 =
        ⟨none, some (genericSignInFailureMsg m), false⟩) := by
  refine ⟨fun h1 => ?_, fun h1 h2 => ?_, fun h1 h2 h3 => ?_,
    fun h1 h2 h3 h4 => ?_, fun h1 h2 h3 h4 => ?_⟩
  · simp [signInWithGoogle, hcfg, jsIncludes_iff, h1]
  · simp [signInWithGoogle, hcfg, jsIncludes_iff, h1, h2]
  · simp [signInWithGoogle, hcfg, jsIncludes_iff, h1, h2, h3]
  · simp [signInWithGoogle, hcfg, jsIncludes_iff, h1, h2, h3, h4]
  · simp [signInWithGoogle, hcfg, jsIncludes_iff, h1, h2, h3, h4]

theorem signInWithGoogle_classifies_witness :
    (signInWithGoogle (some "https://proj.supabase.co") (some "anonkey")
        (OAuthOutcome.err "provider is off")).1 =
      ⟨none, some googleNotEnabledMsg, true⟩ :=
  (signInWithGoogle_classifies (some "https://proj.supabase.co")
      (some "anonkey") "provider is off" (by decide)).1
    (Or.inr (by unfold substrOf; decide))

/-- C5: every failure path of `signInWithGoogle` ends in a returned record
whose error field carries a message: the configuration guard returns the
static misconfiguration message, an OAuth error returns one of the five
classified messages, and a thrown exception is caught and returned as the
generic unexpected-error message; the function's result type is a plain
record (no exception escapes), and the OAuth call is performed at most
once (no retry). -/
theorem signInWithGoogle_failure_paths (url anonKey : Option String)
    (oauth : OAuthOutcome) :
    (supabaseMisconfigured url anonKey = true →
      (signInWithGoogle url anonKey oauth).1.errorMsg =
        some misconfiguredMsg) ∧
    (∀ m, oauth = OAuthOutcome.err m →
      ∃ s, (signInWithGoogle url anonKey oauth).1.errorMsg = some s) ∧
    (∀ m, oauth = OAuthOutcome.thrown m →
      ∃ s, (signInWithGoogle url anonKey oauth).1.errorMsg = some s) ∧
    (signInWithGoogle url anonKey oauth).2 ≤ 1 := by
  by_cases hc : supabaseMisconfigured url anonKey = true
  · refine ⟨fun _ => ?_, fun m hm => ?_, fun m hm => ?_, ?_⟩ <;>
      simp [signInWithGoogle, hc]
  · have hc2 : supabaseMisconfigured url anonKey = false := by
      cases h : supabaseMisconfigured url anonKey
      · rfl
      · exact absurd h hc
    refine ⟨fun h => absurd h hc, fun m hm => ?_, fun m hm => ?_, ?_⟩
    · subst hm
      simp only [signInWithGoogle, hc2]
      repeat' split
      all_goals simp_all
    · subst hm
      simp [signInWithGoogle, hc2]
    · cases oauthTop : oauth <;> simp only [signInWithGoogle, hc2] <;>
        repeat' split
      all_goals simp_all

theorem signInWithGoogle_failure_paths_witness :
    (∃ s, (signInWithGoogle (some "https://proj.supabase.co")
        (some "anonkey") (OAuthOutcome.thrown "boom")).1.errorMsg =
          some s) ∧
      (signInWithGoogle (some "https://proj.supabase.co") (some "anonkey")
          (OAuthOutcome.thrown "boom")).2 ≤ 1 :=
  ⟨(signInWithGoogle_failure_paths (some "https://proj.supabase.co")
      (some "anonkey") (OAuthOutcome.thrown "boom")).2.2.1 "boom" rfl,
    (signInWithGoogle_failure_paths (some "https://proj.supabase.co")
      (some "anonkey") (OAuthOutcome.thrown "boom")).2.2.2⟩

/-! ## Google OAuth callback and profile creation (`createUserProfileFromGoogle`,
`handleGoogleCallback`) -/

/-- The `user_metadata` fields read from the Google OAuth user object. -/
structure GoogleUserMeta where
  full_name : Option String
  name : Option String
deriving DecidableEq, Repr

/-- The OAuth session user (`session.user`). -/
structure SessionUser where
  id : String
  email : String
  user_metadata : GoogleUserMeta
deriving DecidableEq, Repr

/-- A row of the `users` table as inserted by
`createUserProfileFromGoogle`. -/
structure UserProfile where
  id : String
  email : String
  name : String
  university_id : String
  mobile : String
  gender : String
  role : String
deriving DecidableEq, Repr

/-- The `profileData` record built by `createUserProfileFromGoogle`:
`fullName = googleData.full_name || googleData.name || 'Google User'`,
`tempUniversityId = 'GOOGLE_' + user.id.substring(0, 8).toUpperCase()`,
empty mobile, gender `'Male'`, role `'student'`. -/
def createUserProfileFromGoogle (user : SessionUser) : UserProfile :=
  let googleData := user.user_metadata
  let fullName := jsOrStr googleData.full_name
    (jsOrStr googleData.name "Google User")
  let tempUniversityId := "GOOGLE_" ++ jsToUpper (jsSubstring user.id 0 8)
  ⟨user.id, user.email, fullName, tempUniversityId, "", "Male", "student"⟩

/-- The session state `handleGoogleCallback` observes: a session error, no
session (or a session without a user), or a session with a user. -/
inductive SessionState where
  | sessionError (msg : String)
  | noSession
  | active (user : SessionUser)
deriving DecidableEq, Repr

/-- `handleGoogleCallback` (lines 159-208 of the OAuth module) over an
explicit `users` table: a session error or a missing session fails without
touching the table; with a session user, the row with that id is looked up
(`.eq('id', user.id).single()`, where no row is the benign `PGRST116`); an
existing row is left alone, otherwise `createUserProfileFromGoogle` inserts
the new row (`insertOk` is the outcome of that insert). Returns the success
flag and the resulting table. -/
def handleGoogleCallback (sess : SessionState) (users : List UserProfile)
    (insertOk : Bool) : Bool × List UserProfile :=
  match sess with
  | SessionState.sessionError _ => (false, users)
  | SessionState.noSession => (false, users)
  | SessionState.active user =>
    match users.find? (fun p => p.id == user.id) with
    | some _ => (true, users)
    | none =>
      if insertOk then (true, users ++ [createUserProfileFromGoogle user])
      else (false, users)

/-- C6: `handleGoogleCallback` auto-creates the profile row exactly when
needed: with a session user whose id has no row in the `users` table (and
a succeeding insert) the new profile row is appended; when a row with
that id already exists no insert happens and the table (that row
included) is unchanged; without a session it fails and the table is
untouched. -/
theorem handleGoogleCallback_exact (sess : SessionState)
    (users : List UserProfile) (insertOk : Bool) :
    (∀ user, sess = SessionState.active user →
      (∀ p ∈ users, p.id ≠ user.id) → insertOk = true →
      handleGoogleCallback sess users insertOk =
        (true, users ++ [createUserProfileFromGoogle user])) ∧
    (∀ user, sess = SessionState.active user →
      (∃ p ∈ users, p.id = user.id) →
      handleGoogleCallback sess users insertOk = (true, users)) ∧
    (sess = SessionState.noSession →
      handleGoogleCallback sess users insertOk = (false, users)) := by
  refine ⟨fun user hs hnone hins => ?_, fun user hs hsome => ?_,
    fun hs => ?_⟩
  · subst hs; subst hins
    have hfind : users.find? (fun p => p.id == user.id) = none := by
      rw [List.find?_eq_none]
      intro p hp
      simp [hnone p hp]
    simp [handleGoogleCallback, hfind]
  · subst hs
    have hfind : (users.find? (fun p => p.id == user.id)).isSome := by
      rw [List.find?_isSome]
      rcases hsome with ⟨p, hp, hid⟩
      exact ⟨p, hp, by simp [hid]⟩
    rcases Option.isSome_iff_exists.mp hfind with ⟨p, hp⟩
    simp [handleGoogleCallback, hp]
  · subst hs
    simp [handleGoogleCallback]

/-- A session user and a pre-existing profile row for the witnesses. -/
def googleUserSample : SessionUser :=
  ⟨"abc12345-6789", "alice@yahoo.com", ⟨some "Alice Rahman", none⟩⟩

theorem handleGoogleCallback_exact_witness :
    handleGoogleCallback (SessionState.active googleUserSample) [] true =
      (true, [createUserProfileFromGoogle googleUserSample]) := by
  have h := (handleGoogleCallback_exact
    (SessionState.active googleUserSample) [] true).1 googleUserSample rfl
    (by simp) rfl
  simpa using h

/-- C9: the profile row built by `createUserProfileFromGoogle` has role
`student`, gender `Male`, empty mobile, the user's email, name the
`full_name` metadata when present (or the `name` metadata, or
`"Google User"` when both are absent), and `university_id` the string
`GOOGLE_` followed by the first 8 characters of the user's id
uppercased. -/
theorem createUserProfileFromGoogle_fields (user : SessionUser) :
    (createUserProfileFromGoogle user).role = "student" ∧
    (createUserProfileFromGoogle user).gender = "Male" ∧
    (createUserProfileFromGoogle user).mobile = "" ∧
    (createUserProfileFromGoogle user).email = user.email ∧
    (createUserProfileFromGoogle user).university_id =
      "GOOGLE_" ++ String.mk ((user.id.data.take 8).map Char.toUpper) ∧
    (∀ s, user.user_metadata.full_name = some s → s ≠ "" →
      (createUserProfileFromGoogle user).name = s) ∧
    (user.user_metadata.full_name = none →
      ∀ t, user.user_metadata.name = some t → t ≠ "" →
        (createUserProfileFromGoogle user).name = t) ∧
    (user.user_metadata.full_name = none →
      user.user_metadata.name = none →
        (createUserProfileFromGoogle user).name = "Google User") := by
  refine ⟨rfl, rfl, rfl, rfl, ?_, fun s hs hne => ?_, fun hf t ht hne => ?_,
    fun hf hn => ?_⟩
  · simp [createUserProfileFromGoogle, jsToUpper, jsSubstring]
  · simp [createUserProfileFromGoogle, jsOrStr, hs, hne]
  · simp [createUserProfileFromGoogle, jsOrStr, hf, ht, hne]
  · simp [createUserProfileFromGoogle, jsOrStr, hf, hn]

theorem createUserProfileFromGoogle_fields_witness :
    (createUserProfileFromGoogle googleUserSample).name = "Alice Rahman" :=
  (createUserProfileFromGoogle_fields googleUserSample).2.2.2.2.2.1
    "Alice Rahman" rfl (by decide)
